import Mathlib

/-!
Shallow embedding of the `pocket` repository: the NATS convenience layer
(`src/pocketkit/nats/client.py`) and the timing decorator
(`src/pocket/decorators/timming.py`).

The Python code only forwards calls to an external messaging client and logs.
Each method is embedded as a pure function that takes the outcomes of the
underlying client calls as explicit arguments (an oracle), and returns the
method's result as `Except PyExc _` (normal return versus raised exception)
together with the ordered trace of observable effects: log statements and the
calls made to the external client.  A log statement that interpolates a caught
exception object carries that exception in the trace (`Option PyExc`); all
other log text is irrelevant to the properties and is recorded as `none`.

One fact of the source is load-bearing throughout: `pocketkit/logger.py`
builds the logger with the standard library's `logging.getLogger("pocket")`,
and a standard `logging.Logger` has no `success` method (that method exists
on loguru loggers only).  Every `logger.success(...)` call in `client.py`
therefore raises `AttributeError` at runtime; the embedding models each such
call as raising `PyExc.attributeError` at exactly the point where the source
makes it, so a `success` log event never actually appears in any trace.
The `debug`/`info`/`warning`/`error` logger methods exist and are modelled
as succeeding log events.
-/

namespace Pocket

/-- A raised Python exception.  `timeoutError` stands for
`asyncio.TimeoutError`, which `PullStreamWorker.run` treats specially;
`attributeError` is the `AttributeError` raised by every `logger.success`
call (the stdlib logger created in `pocketkit/logger.py` has no `success`
method); every other exception class/instance is `other n`. -/
inductive PyExc where
  | timeoutError : PyExc
  | attributeError : PyExc
  | other : Nat → PyExc
  deriving DecidableEq, Repr

/-- The session handle returned by `nats.connect` (opaque). -/
structure Client where
  cid : Nat
  deriving DecidableEq, Repr

/-- The stream sub-context returned by `nc.jetstream()` (opaque, derived
from the session handle). -/
structure JetStreamContext where
  owner : Client
  deriving DecidableEq, Repr

/-- `nc.jetstream()`: derives the stream context from the session handle. -/
def Client.jetstream (nc : Client) : JetStreamContext := ⟨nc⟩

/-- A delivered message: opaque byte payload plus the stream sequence number
(`msg.metadata.sequence.stream`). -/
structure Msg where
  data : List Nat
  seq : Nat
  deriving DecidableEq, Repr

/-- Acknowledgment returned by `js.publish` (carries `ack.seq`). -/
structure PubAck where
  seq : Nat
  deriving DecidableEq, Repr

/-- Log level of the logger calls in the source. -/
inductive LogLevel where
  | debug | info | success | warning | error
  deriving DecidableEq, Repr

/-- One observable effect of a method: a log statement (carrying the caught
exception when the source interpolates one) or a call into the external
client with the exact arguments the source passes. -/
inductive Event where
  | log : LogLevel → Option PyExc → Event
  | connectCall : String → Event
  | ncDrain : Client → Event
  | ncRequest : Client → String → List Nat → Event
  | ncPublish : Client → String → List Nat → Event
  | ncSubscribe : Client → String → Option String → Event
  | jsAddStream : JetStreamContext → String → List String → Event
  | jsPublish : JetStreamContext → String → List Nat → Event
  | jsSubscribe : JetStreamContext → String → String → Event
  | jsPullSubscribe : JetStreamContext → String → String → Event
  | fetch : Nat → Event
  | ack : Nat → Event
  | nak : Nat → Event
  | handlerCall : Msg → Event
  deriving DecidableEq, Repr

/-- `true` when some log statement in the trace interpolates exception `e`:
this is what "the exception is logged" means for this code. -/
def logsExc (evs : List Event) (e : PyExc) : Bool :=
  evs.any fun ev =>
    match ev with
    | Event.log _ (some e2) => e2 = e
    | _ => false

/-- `true` for log events; used to isolate the external-client calls. -/
def isLogEvent : Event → Bool
  | Event.log _ _ => true
  | _ => false

/-- The non-log events of a trace: the calls made to the external client. -/
def clientCalls (evs : List Event) : List Event :=
  evs.filter fun ev => !isLogEvent ev

/-- `class NatsConnection`: (server address, session handle, stream-context
handle). -/
structure NatsConnection where
  server : String
  nc : Client
  js : JetStreamContext
  deriving DecidableEq, Repr

/-- `NatsConnection.create`: log, `nc = await nats.connect(server)`,
`js = nc.jetstream()`, then `logger.success(...)`, then `return cls(server,
nc, js)`.  `connectResult` is the outcome of the `nats.connect(server)` call.
When connect succeeds, the `logger.success` call raises `AttributeError`
before the `return`, so the constructed connection is never returned. -/
def NatsConnection.create (connectResult : Except PyExc Client)
    (server : String) : Except PyExc NatsConnection × List Event :=
  match connectResult with
  | Except.ok _ =>
      (Except.error PyExc.attributeError,
        [Event.log LogLevel.info none, Event.connectCall server])
  | Except.error e =>
      (Except.error e, [Event.log LogLevel.info none, Event.connectCall server])

/-- `NatsConnection.close`: log, `await self.nc.drain()`, then
`logger.success(...)`, which raises `AttributeError` after the drain has
completed. -/
def NatsConnection.close (drainResult : Except PyExc Unit)
    (conn : NatsConnection) : Except PyExc Unit × List Event :=
  match drainResult with
  | Except.ok _ =>
      (Except.error PyExc.attributeError,
        [Event.log LogLevel.info none, Event.ncDrain conn.nc])
  | Except.error e =>
      (Except.error e, [Event.log LogLevel.info none, Event.ncDrain conn.nc])

/-- `NatsConnection.request`: log, `msg = await self.nc.request(subject,
data, timeout=timeout)`, log, `return msg.data`.  `requestResult` is the
outcome of the underlying request call (the reply message or an exception). -/
def NatsConnection.request (requestResult : Except PyExc Msg)
    (conn : NatsConnection) (subject : String) (data : List Nat) :
    Except PyExc (List Nat) × List Event :=
  match requestResult with
  | Except.ok m =>
      (Except.ok m.data,
        [Event.log LogLevel.info none, Event.ncRequest conn.nc subject data,
         Event.log LogLevel.info none])
  | Except.error e =>
      (Except.error e,
        [Event.log LogLevel.info none, Event.ncRequest conn.nc subject data])

/-- `class EventPublisher`: stores `self.nc = conn.nc`. -/
structure EventPublisher where
  nc : Client
  deriving DecidableEq, Repr

/-- `EventPublisher.__init__(conn)`: reads `conn.nc` and stores it; the
connection itself is not written (returned unchanged). -/
def EventPublisher.init (conn : NatsConnection) :
    EventPublisher × NatsConnection :=
  (⟨conn.nc⟩, conn)

/-- `EventPublisher.publish`: log, `await self.nc.publish(subject, data)`,
log.  There is no try/except in this method. -/
def EventPublisher.publish (pubResult : Except PyExc Unit)
    (p : EventPublisher) (subject : String) (data : List Nat) :
    Except PyExc Unit × List Event :=
  match pubResult with
  | Except.ok _ =>
      (Except.ok (),
        [Event.log LogLevel.debug none, Event.ncPublish p.nc subject data,
         Event.log LogLevel.info none])
  | Except.error e =>
      (Except.error e,
        [Event.log LogLevel.debug none, Event.ncPublish p.nc subject data])

/-- `class EventSubscriber`: stores `self.nc = conn.nc`. -/
structure EventSubscriber where
  nc : Client
  deriving DecidableEq, Repr

/-- `EventSubscriber.__init__(conn)`. -/
def EventSubscriber.init (conn : NatsConnection) :
    EventSubscriber × NatsConnection :=
  (⟨conn.nc⟩, conn)

/-- `EventSubscriber.subscribe`: log, `await self.nc.subscribe(subject,
cb=handler)`, then `logger.success(...)`, which raises `AttributeError`
after the subscription is installed.  There is no try/except in this
method. -/
def EventSubscriber.subscribe (subResult : Except PyExc Unit)
    (s : EventSubscriber) (subject : String) :
    Except PyExc Unit × List Event :=
  match subResult with
  | Except.ok _ =>
      (Except.error PyExc.attributeError,
        [Event.log LogLevel.info none, Event.ncSubscribe s.nc subject none])
  | Except.error e =>
      (Except.error e,
        [Event.log LogLevel.info none, Event.ncSubscribe s.nc subject none])

/-- `class StreamPublisher`: stores `self.js = conn.js`, stream, subject. -/
structure StreamPublisher where
  js : JetStreamContext
  stream : String
  subject : String
  deriving DecidableEq, Repr

/-- `StreamPublisher.__init__(conn, stream, subject)`. -/
def StreamPublisher.init (conn : NatsConnection) (stream subject : String) :
    StreamPublisher × NatsConnection :=
  (⟨conn.js, stream, subject⟩, conn)

/-- `StreamPublisher.init_stream`: log, then `try: await
self.js.add_stream(...); logger.success(...) except Exception as e:
log warning(e)`.  Never re-raises.  When `add_stream` succeeds, the in-try
`logger.success` call raises `AttributeError`, which the same except clause
catches and logs as a warning. -/
def StreamPublisher.init_stream (addStreamResult : Except PyExc Unit)
    (sp : StreamPublisher) : Except PyExc Unit × List Event :=
  match addStreamResult with
  | Except.ok _ =>
      (Except.ok (),
        [Event.log LogLevel.info none,
         Event.jsAddStream sp.js sp.stream [sp.subject],
         Event.log LogLevel.warning (some PyExc.attributeError)])
  | Except.error e =>
      (Except.ok (),
        [Event.log LogLevel.info none,
         Event.jsAddStream sp.js sp.stream [sp.subject],
         Event.log LogLevel.warning (some e)])

/-- `StreamPublisher.submit`: log, `ack = await self.js.publish(self.subject,
data)`, then `logger.success(...)`, which raises `AttributeError` after the
publish has succeeded.  There is no try/except in this method. -/
def StreamPublisher.submit (jsPubResult : Except PyExc PubAck)
    (sp : StreamPublisher) (data : List Nat) :
    Except PyExc Unit × List Event :=
  match jsPubResult with
  | Except.ok _ =>
      (Except.error PyExc.attributeError,
        [Event.log LogLevel.info none, Event.jsPublish sp.js sp.subject data])
  | Except.error e =>
      (Except.error e,
        [Event.log LogLevel.info none, Event.jsPublish sp.js sp.subject data])

/-- `class BaseStreamWorker`: stores `self.js = conn.js`, stream, subject,
durable. -/
structure BaseStreamWorker where
  js : JetStreamContext
  stream : String
  subject : String
  durable : String
  deriving DecidableEq, Repr

/-- `BaseStreamWorker.__init__(conn, stream, subject, durable)`. -/
def BaseStreamWorker.init (conn : NatsConnection)
    (stream subject durable : String) :
    BaseStreamWorker × NatsConnection :=
  (⟨conn.js, stream, subject, durable⟩, conn)

/-- `BaseStreamWorker.init_stream`: identical to
`StreamPublisher.init_stream` (duplicated in the source), including the
caught in-try `AttributeError` from `logger.success` on the success path. -/
def BaseStreamWorker.init_stream (addStreamResult : Except PyExc Unit)
    (w : BaseStreamWorker) : Except PyExc Unit × List Event :=
  match addStreamResult with
  | Except.ok _ =>
      (Except.ok (),
        [Event.log LogLevel.info none,
         Event.jsAddStream w.js w.stream [w.subject],
         Event.log LogLevel.warning (some PyExc.attributeError)])
  | Except.error e =>
      (Except.ok (),
        [Event.log LogLevel.info none,
         Event.jsAddStream w.js w.stream [w.subject],
         Event.log LogLevel.warning (some e)])

/-- `class PullStreamWorker(BaseStreamWorker)`: additionally stores
`self.batch = batch`. -/
structure PullStreamWorker extends BaseStreamWorker where
  batch : Nat
  deriving DecidableEq, Repr

/-- `PullStreamWorker.__init__(conn, stream, subject, durable, batch)`:
`super().__init__(...)` then `self.batch = batch`. -/
def PullStreamWorker.init (conn : NatsConnection)
    (stream subject durable : String) (batch : Nat) :
    PullStreamWorker × NatsConnection :=
  (⟨(BaseStreamWorker.init conn stream subject durable).1, batch⟩, conn)

/-- Outcomes of the external calls made inside `PullStreamWorker.run`:
the result of the `i`-th `sub.fetch(batch)` call, the outcome of
`handler(msg)`, `msg.ack()` and `msg.nak()` per message, and the outcome of
`js.pull_subscribe(...)`. -/
structure WorkerOracle where
  fetchResult : Nat → Except PyExc (List Msg)
  handlerResult : Msg → Except PyExc Unit
  ackResult : Msg → Except PyExc Unit
  nakResult : Msg → Except PyExc Unit
  pullSubscribeResult : Except PyExc Unit

/-- The per-message body of `PullStreamWorker.run`'s loop:
`log info; try: await handler(msg); await msg.ack(); logger.success(...)
except Exception as e: log error(e); await msg.nak()`.
When handler and ack both succeed, the in-try `logger.success` call raises
`AttributeError`, which the except clause catches: the real code error-logs
that `AttributeError` and naks the message it has just acked.
A result of `Except.error` means the body itself raised (only possible
when `msg.nak()` raises). -/
def processMsg (o : WorkerOracle) (msg : Msg) :
    Except PyExc Unit × List Event :=
  match o.handlerResult msg with
  | Except.ok _ =>
      match o.ackResult msg with
      | Except.ok _ =>
          match o.nakResult msg with
          | Except.ok _ =>
              (Except.ok (),
                [Event.log LogLevel.info none, Event.handlerCall msg,
                 Event.ack msg.seq,
                 Event.log LogLevel.error (some PyExc.attributeError),
                 Event.nak msg.seq])
          | Except.error e2 =>
              (Except.error e2,
                [Event.log LogLevel.info none, Event.handlerCall msg,
                 Event.ack msg.seq,
                 Event.log LogLevel.error (some PyExc.attributeError),
                 Event.nak msg.seq])
      | Except.error e =>
          match o.nakResult msg with
          | Except.ok _ =>
              (Except.ok (),
                [Event.log LogLevel.info none, Event.handlerCall msg,
                 Event.ack msg.seq, Event.log LogLevel.error (some e),
                 Event.nak msg.seq])
          | Except.error e2 =>
              (Except.error e2,
                [Event.log LogLevel.info none, Event.handlerCall msg,
                 Event.ack msg.seq, Event.log LogLevel.error (some e),
                 Event.nak msg.seq])
  | Except.error e =>
      match o.nakResult msg with
      | Except.ok _ =>
          (Except.ok (),
            [Event.log LogLevel.info none, Event.handlerCall msg,
             Event.log LogLevel.error (some e), Event.nak msg.seq])
      | Except.error e2 =>
          (Except.error e2,
            [Event.log LogLevel.info none, Event.handlerCall msg,
             Event.log LogLevel.error (some e), Event.nak msg.seq])

/-- `for msg in msgs: ...` over one fetched batch; an exception raised by the
body propagates and stops the iteration. -/
def processBatch (o : WorkerOracle) : List Msg → Except PyExc Unit × List Event
  | [] => (Except.ok (), [])
  | m :: rest =>
      match processMsg o m with
      | (Except.ok _, evs) =>
          let r := processBatch o rest
          (r.1, evs ++ r.2)
      | (Except.error e, evs) => (Except.error e, evs)

/-- The `while True:` loop of `PullStreamWorker.run` as written at
client.py:138-155, indexed by the number `i` of fetch calls already made and
bounded by `fuel` remaining iterations.  Result `none` means the fuel ran
out with the loop still running; `some (Except.error e)` means an exception
propagated out of the loop; `some (Except.ok ())` would mean a normal return.
`try: msgs = await sub.fetch(self.batch) except asyncio.TimeoutError:
continue`; any other fetch exception propagates.  NOTE: this loop is dead
code in the actual program — `run` raises `AttributeError` at the pre-loop
`logger.success` call (client.py:136) and never reaches it. -/
def runLoop (o : WorkerOracle) (batch : Nat) :
    Nat → Nat → Option (Except PyExc Unit) × List Event
  | _, 0 => (none, [])
  | i, fuel + 1 =>
      match o.fetchResult i with
      | Except.error PyExc.timeoutError =>
          let r := runLoop o batch (i + 1) fuel
          (r.1, Event.fetch batch :: r.2)
      | Except.error e => (some (Except.error e), [Event.fetch batch])
      | Except.ok msgs =>
          match processBatch o msgs with
          | (Except.ok _, evs) =>
              let r := runLoop o batch (i + 1) fuel
              (r.1, Event.fetch batch :: (evs ++ r.2))
          | (Except.error e, evs) =>
              (some (Except.error e), Event.fetch batch :: evs)

/-- `PullStreamWorker.run`: log, `sub = await self.js.pull_subscribe(
subject=self.subject, durable=self.durable)`, then `logger.success(...)`,
then the `while True:` loop.  When pull_subscribe succeeds, the
`logger.success` call at client.py:136 raises `AttributeError` before the
loop, so the loop is never entered and no fetch ever happens (`fuel` is
irrelevant). -/
def PullStreamWorker.run (o : WorkerOracle) (w : PullStreamWorker)
    (_fuel : Nat) : Option (Except PyExc Unit) × List Event :=
  match o.pullSubscribeResult with
  | Except.error e =>
      (some (Except.error e),
        [Event.log LogLevel.info none,
         Event.jsPullSubscribe w.js w.subject w.durable])
  | Except.ok _ =>
      (some (Except.error PyExc.attributeError),
        [Event.log LogLevel.info none,
         Event.jsPullSubscribe w.js w.subject w.durable])

/-- `class SubscribeStreamWorker(BaseStreamWorker)`: no extra fields. -/
structure SubscribeStreamWorker extends BaseStreamWorker where
  deriving DecidableEq, Repr

/-- `SubscribeStreamWorker.__init__(conn, stream, subject, durable)`:
`super().__init__(...)` only. -/
def SubscribeStreamWorker.init (conn : NatsConnection)
    (stream subject durable : String) :
    SubscribeStreamWorker × NatsConnection :=
  (⟨(BaseStreamWorker.init conn stream subject durable).1⟩, conn)

/-- `SubscribeStreamWorker.run`: log, `await self.js.subscribe(
subject=self.subject, durable=self.durable, cb=handler)`, then
`logger.success(...)`, which raises `AttributeError` after the subscription
is installed. -/
def SubscribeStreamWorker.run (subResult : Except PyExc Unit)
    (w : SubscribeStreamWorker) : Except PyExc Unit × List Event :=
  match subResult with
  | Except.ok _ =>
      (Except.error PyExc.attributeError,
        [Event.log LogLevel.info none,
         Event.jsSubscribe w.js w.subject w.durable])
  | Except.error e =>
      (Except.error e,
        [Event.log LogLevel.info none,
         Event.jsSubscribe w.js w.subject w.durable])

/-- `class QueueWorker`: stores `self.nc = conn.nc`, subject, queue. -/
structure QueueWorker where
  nc : Client
  subject : String
  queue : String
  deriving DecidableEq, Repr

/-- `QueueWorker.__init__(conn, subject, queue)`. -/
def QueueWorker.init (conn : NatsConnection) (subject queue : String) :
    QueueWorker × NatsConnection :=
  (⟨conn.nc, subject, queue⟩, conn)

/-- `QueueWorker.run`: log, `await self.nc.subscribe(self.subject,
cb=handler, queue=self.queue)`, then `logger.success(...)`, which raises
`AttributeError` after the subscription is installed. -/
def QueueWorker.run (subResult : Except PyExc Unit) (w : QueueWorker) :
    Except PyExc Unit × List Event :=
  match subResult with
  | Except.ok _ =>
      (Except.error PyExc.attributeError,
        [Event.log LogLevel.info none,
         Event.ncSubscribe w.nc w.subject (some w.queue)])
  | Except.error e =>
      (Except.error e,
        [Event.log LogLevel.info none,
         Event.ncSubscribe w.nc w.subject (some w.queue)])

/-- `class Responder`: stores `self.nc = conn.nc`, subject. -/
structure Responder where
  nc : Client
  subject : String
  deriving DecidableEq, Repr

/-- `Responder.__init__(conn, subject)`. -/
def Responder.init (conn : NatsConnection) (subject : String) :
    Responder × NatsConnection :=
  (⟨conn.nc, subject⟩, conn)

/-- The callback `cb` that `Responder.serve` installs:
`try: await handler(msg) except Exception as e: log error(e)`.
Never re-raises. -/
def Responder.cb (handler : Msg → Except PyExc Unit) (msg : Msg) :
    Except PyExc Unit × List Event :=
  match handler msg with
  | Except.ok _ => (Except.ok (), [Event.handlerCall msg])
  | Except.error e =>
      (Except.ok (),
        [Event.handlerCall msg, Event.log LogLevel.error (some e)])

/-- `Responder.serve`: log, `await self.nc.subscribe(self.subject, cb=cb)`,
then `logger.success(...)`, which raises `AttributeError` after the
subscription (with the exception-swallowing `cb`) is installed. -/
def Responder.serve (subResult : Except PyExc Unit) (r : Responder) :
    Except PyExc Unit × List Event :=
  match subResult with
  | Except.ok _ =>
      (Except.error PyExc.attributeError,
        [Event.log LogLevel.info none, Event.ncSubscribe r.nc r.subject none])
  | Except.error e =>
      (Except.error e,
        [Event.log LogLevel.info none, Event.ncSubscribe r.nc r.subject none])

/-- `get_time_sync(func)` applied to arguments: log start, run `func`; on
normal return log the duration and return the result; on exception log the
failure (interpolating the exception) and `raise` it unchanged. -/
def get_time_sync {α β : Type} (func : α → Except PyExc β) (args : α) :
    Except PyExc β × List Event :=
  match func args with
  | Except.ok r =>
      (Except.ok r, [Event.log LogLevel.info none, Event.log LogLevel.info none])
  | Except.error e =>
      (Except.error e,
        [Event.log LogLevel.info none, Event.log LogLevel.error (some e)])

/-- `get_time_async(func)` applied to arguments: same shape as
`get_time_sync` (the source duplicates the body for coroutines). -/
def get_time_async {α β : Type} (func : α → Except PyExc β) (args : α) :
    Except PyExc β × List Event :=
  match func args with
  | Except.ok r =>
      (Except.ok r, [Event.log LogLevel.info none, Event.log LogLevel.info none])
  | Except.error e =>
      (Except.error e,
        [Event.log LogLevel.info none, Event.log LogLevel.error (some e)])

/-! Concrete sample objects used by counterexamples and witnesses. -/

def sampleClient : Client := ⟨0⟩

def sampleJs : JetStreamContext := sampleClient.jetstream

def sampleConn : NatsConnection := ⟨"srv", sampleClient, sampleJs⟩

def samplePub : EventPublisher := ⟨sampleClient⟩

def sampleSub : EventSubscriber := ⟨sampleClient⟩

def sampleMsg : Msg := ⟨[1, 2, 3], 7⟩

/-! ### C1 -/

/-- The C1 claim, formalised: in the publish, subscribe and request paths,
an exception `e` raised by the underlying client call is re-raised unchanged
AND some log statement interpolates it. -/
def claimC1 : Prop :=
  ∀ (e : PyExc) (p : EventPublisher) (s : EventSubscriber)
    (conn : NatsConnection) (subject : String) (d : List Nat),
    ((EventPublisher.publish (Except.error e) p subject d).1 = Except.error e ∧
      logsExc (EventPublisher.publish (Except.error e) p subject d).2 e = true) ∧
    ((EventSubscriber.subscribe (Except.error e) s subject).1 = Except.error e ∧
      logsExc (EventSubscriber.subscribe (Except.error e) s subject).2 e = true) ∧
    ((NatsConnection.request (Except.error e) conn subject d).1 = Except.error e ∧
      logsExc (NatsConnection.request (Except.error e) conn subject d).2 e = true)

/-- C1 is false on the code: when `nc.publish` raises, `EventPublisher.publish`
has no try/except, so nothing logs the exception (shown here at a concrete
input; the same holds for subscribe and request). -/
theorem claimC1_false : ¬ claimC1 := by
  intro h
  have h2 := (h (PyExc.other 0) samplePub sampleSub sampleConn "chan" [1]).1.2
  simp [EventPublisher.publish, logsExc, samplePub] at h2

/-- C1 amended: in the publish, subscribe and request paths an exception from
the underlying client call propagates unchanged to the caller, but these
methods have no exception handling of their own, so the exception is not
logged there: the full behaviour on the error path is exactly the initial log
line, the client call, and the re-raised exception. -/
theorem error_propagation_unlogged_C1 (e : PyExc) (p : EventPublisher)
    (s : EventSubscriber) (conn : NatsConnection) (subject : String)
    (d : List Nat) :
    EventPublisher.publish (Except.error e) p subject d =
      (Except.error e,
        [Event.log LogLevel.debug none, Event.ncPublish p.nc subject d]) ∧
    EventSubscriber.subscribe (Except.error e) s subject =
      (Except.error e,
        [Event.log LogLevel.info none, Event.ncSubscribe s.nc subject none]) ∧
    NatsConnection.request (Except.error e) conn subject d =
      (Except.error e,
        [Event.log LogLevel.info none, Event.ncRequest conn.nc subject d]) ∧
    logsExc (EventPublisher.publish (Except.error e) p subject d).2 e = false ∧
    logsExc (EventSubscriber.subscribe (Except.error e) s subject).2 e = false ∧
    logsExc (NatsConnection.request (Except.error e) conn subject d).2 e = false := by
  refine ⟨rfl, rfl, rfl, ?_, ?_, ?_⟩ <;>
    simp [EventPublisher.publish, EventSubscriber.subscribe,
      NatsConnection.request, logsExc]

/-! ### C3 and C8: the timing decorator -/

/-- C3: when the wrapped function raises, the wrapper produced by
`get_time_sync` (resp. `get_time_async`) logs the failure, interpolating the
exception, and re-raises that same exception unchanged. -/
theorem timing_reraise_C3 {α β : Type} (func : α → Except PyExc β) (args : α)
    (e : PyExc) (h : func args = Except.error e) :
    (get_time_sync func args).1 = Except.error e ∧
    logsExc (get_time_sync func args).2 e = true ∧
    (get_time_async func args).1 = Except.error e ∧
    logsExc (get_time_async func args).2 e = true := by
  simp [get_time_sync, get_time_async, logsExc, h]

/-- Witness for C3 at a concrete failing function. -/
theorem timing_reraise_C3_witness :
    (get_time_sync (fun _ : Nat => (Except.error (PyExc.other 5) : Except PyExc Nat)) 0).1 =
      Except.error (PyExc.other 5) ∧
    logsExc (get_time_sync (fun _ : Nat => (Except.error (PyExc.other 5) : Except PyExc Nat)) 0).2
      (PyExc.other 5) = true ∧
    (get_time_async (fun _ : Nat => (Except.error (PyExc.other 5) : Except PyExc Nat)) 0).1 =
      Except.error (PyExc.other 5) ∧
    logsExc (get_time_async (fun _ : Nat => (Except.error (PyExc.other 5) : Except PyExc Nat)) 0).2
      (PyExc.other 5) = true :=
  timing_reraise_C3 (fun _ : Nat => (Except.error (PyExc.other 5) : Except PyExc Nat))
    0 (PyExc.other 5) rfl

/-- C8: when the wrapped function returns normally, the wrapper produced by
`get_time_sync` (resp. `get_time_async`) returns exactly that value: apart
from logging, the decorated function is behaviourally equivalent to the
original. -/
theorem timing_identity_C8 {α β : Type} (func : α → Except PyExc β) (args : α)
    (r : β) (h : func args = Except.ok r) :
    (get_time_sync func args).1 = Except.ok r ∧
    (get_time_async func args).1 = Except.ok r := by
  simp [get_time_sync, get_time_async, h]

/-- Witness for C8 at a concrete function. -/
theorem timing_identity_C8_witness :
    (get_time_sync (fun n : Nat => (Except.ok (n + 1) : Except PyExc Nat)) 4).1 =
      Except.ok 5 ∧
    (get_time_async (fun n : Nat => (Except.ok (n + 1) : Except PyExc Nat)) 4).1 =
      Except.ok 5 :=
  timing_identity_C8 (fun n : Nat => (Except.ok (n + 1) : Except PyExc Nat)) 4 5 rfl

/-! ### C5: payloads pass through unmodified -/

/-- C5: `NatsConnection.request` returns the reply message's data bytes
exactly as received; `EventPublisher.publish` and `StreamPublisher.submit`
pass the caller's byte payload to the underlying client unmodified (the
client call in the trace carries exactly the caller's bytes); and the
pull-worker loop body hands each fetched message to the handler unaltered. -/
theorem payload_passthrough_C5 (m : Msg) (conn : NatsConnection)
    (subject : String) (d : List Nat) (p : EventPublisher)
    (sp : StreamPublisher) (pr : Except PyExc Unit)
    (jr : Except PyExc PubAck) (o : WorkerOracle) :
    (NatsConnection.request (Except.ok m) conn subject d).1 = Except.ok m.data ∧
    Event.ncPublish p.nc subject d ∈ (EventPublisher.publish pr p subject d).2 ∧
    Event.jsPublish sp.js sp.subject d ∈ (StreamPublisher.submit jr sp d).2 ∧
    Event.handlerCall m ∈ (processMsg o m).2 := by
  refine ⟨rfl, ?_, ?_, ?_⟩
  · cases pr <;> simp [EventPublisher.publish]
  · cases jr <;> simp [StreamPublisher.submit]
  · unfold processMsg
    cases o.handlerResult m <;> cases o.ackResult m <;>
      cases o.nakResult m <;> simp

/-! ### C6: connection lifecycle -/

/-- C6 is right about the intent but the code is broken: with
`nats.connect("srv")` succeeding (client 0), `create` raises
`AttributeError` at the `logger.success` call before `return cls(...)`
(client.py:29), so it never returns the connection the claim describes;
`close` does delegate to a single drain on the session handle, but then
raises `AttributeError` at its own `logger.success` (client.py:35) instead
of returning. -/
theorem connection_create_bug_C6 :
    NatsConnection.create (Except.ok sampleClient) "srv" =
      (Except.error PyExc.attributeError,
        [Event.log LogLevel.info none, Event.connectCall "srv"]) ∧
    NatsConnection.close (Except.ok ()) sampleConn =
      (Except.error PyExc.attributeError,
        [Event.log LogLevel.info none, Event.ncDrain sampleClient]) ∧
    clientCalls (NatsConnection.close (Except.ok ()) sampleConn).2 =
      [Event.ncDrain sampleConn.nc] :=
  ⟨rfl, rfl, rfl⟩

/-! ### C9: init_stream never raises -/

/-- C9: `StreamPublisher.init_stream` and `BaseStreamWorker.init_stream`
always return normally, whatever the `add_stream` call does; when
`add_stream` raises, the exception is logged as a warning. -/
theorem init_stream_no_raise_C9 (res : Except PyExc Unit)
    (sp : StreamPublisher) (w : BaseStreamWorker) :
    (StreamPublisher.init_stream res sp).1 = Except.ok () ∧
    (BaseStreamWorker.init_stream res w).1 = Except.ok () ∧
    (∀ e, res = Except.error e →
      Event.log LogLevel.warning (some e) ∈ (StreamPublisher.init_stream res sp).2 ∧
      Event.log LogLevel.warning (some e) ∈ (BaseStreamWorker.init_stream res w).2) := by
  refine ⟨?_, ?_, ?_⟩
  · cases res <;> rfl
  · cases res <;> rfl
  · intro e he
    subst he
    simp [StreamPublisher.init_stream, BaseStreamWorker.init_stream]

/-- Witness for C9 at a concrete failing `add_stream` outcome. -/
theorem init_stream_no_raise_C9_witness :
    (StreamPublisher.init_stream (Except.error (PyExc.other 2))
        ⟨sampleJs, "st", "su"⟩).1 = Except.ok () ∧
    Event.log LogLevel.warning (some (PyExc.other 2)) ∈
      (StreamPublisher.init_stream (Except.error (PyExc.other 2))
        ⟨sampleJs, "st", "su"⟩).2 ∧
    (BaseStreamWorker.init_stream (Except.error (PyExc.other 2))
        ⟨sampleJs, "st", "su", "du"⟩).1 = Except.ok () :=
  ⟨(init_stream_no_raise_C9 (Except.error (PyExc.other 2))
      ⟨sampleJs, "st", "su"⟩ ⟨sampleJs, "st", "su", "du"⟩).1,
   ((init_stream_no_raise_C9 (Except.error (PyExc.other 2))
      ⟨sampleJs, "st", "su"⟩ ⟨sampleJs, "st", "su", "du"⟩).2.2
      (PyExc.other 2) rfl).1,
   (init_stream_no_raise_C9 (Except.error (PyExc.other 2))
      ⟨sampleJs, "st", "su"⟩ ⟨sampleJs, "st", "su", "du"⟩).2.1⟩

/-! ### C10: the responder callback swallows handler exceptions -/

/-- C10: the callback installed by `Responder.serve` returns normally for
every message, whatever the user handler does; when the handler raises, the
exception is logged as an error and not re-raised. -/
theorem responder_swallow_C10 (handler : Msg → Except PyExc Unit) (msg : Msg) :
    (Responder.cb handler msg).1 = Except.ok () ∧
    (∀ e, handler msg = Except.error e →
      logsExc (Responder.cb handler msg).2 e = true) := by
  constructor
  · unfold Responder.cb
    cases handler msg <;> rfl
  · intro e he
    simp [Responder.cb, he, logsExc]

/-- Witness for C10 at a concrete failing handler. -/
theorem responder_swallow_C10_witness :
    (Responder.cb (fun _ => Except.error (PyExc.other 9)) sampleMsg).1 =
      Except.ok () ∧
    logsExc (Responder.cb (fun _ => Except.error (PyExc.other 9)) sampleMsg).2
      (PyExc.other 9) = true :=
  ⟨(responder_swallow_C10 (fun _ => Except.error (PyExc.other 9)) sampleMsg).1,
   (responder_swallow_C10 (fun _ => Except.error (PyExc.other 9)) sampleMsg).2
     (PyExc.other 9) rfl⟩

/-! ### C2: ack on success, nak on handler failure -/

/-- Oracle where every call succeeds and each fetch yields `sampleMsg`. -/
def oracleOk : WorkerOracle :=
  ⟨fun _ => Except.ok [sampleMsg], fun _ => Except.ok (),
   fun _ => Except.ok (), fun _ => Except.ok (), Except.ok ()⟩

/-- A concrete pull worker. -/
def sampleWorker : PullStreamWorker := ⟨⟨sampleJs, "st", "su", "du"⟩, 1⟩

/-- C2 is right about the intent but the code is broken: on a message whose
handler and ack both succeed, the in-try `logger.success` call
(client.py:150) raises `AttributeError` — the stdlib logger from
`pocketkit/logger.py` has no `success` method — and the `except Exception`
clause catches it, error-logs it and calls `msg.nak()` on the message it has
just acked.  So the claimed dichotomy (ack on success, nak only on handler
failure) fails: every successfully handled message is both acked and naked.
This theorem evaluates the loop body at the failing input (`sampleMsg` under
`oracleOk`, where handler, ack and nak all return normally).  Moreover `run`
itself raises `AttributeError` at the pre-loop `logger.success`
(client.py:136), so in the actual program no message is ever fetched at
all. -/
theorem pullWorker_ackNak_bug_C2 :
    processMsg oracleOk sampleMsg =
      (Except.ok (),
        [Event.log LogLevel.info none, Event.handlerCall sampleMsg,
         Event.ack sampleMsg.seq,
         Event.log LogLevel.error (some PyExc.attributeError),
         Event.nak sampleMsg.seq]) ∧
    Event.nak sampleMsg.seq ∈ (processMsg oracleOk sampleMsg).2 ∧
    (PullStreamWorker.run oracleOk sampleWorker 5).1 =
      some (Except.error PyExc.attributeError) := by
  refine ⟨rfl, ?_, rfl⟩
  simp [processMsg, oracleOk]

/-! ### C4: the pull-worker loop -/

/-- C4 is right about the loop as written but the code never reaches it:
when `js.pull_subscribe` succeeds, `run` raises `AttributeError` at the
pre-loop `logger.success` call (client.py:136) — the stdlib logger from
`pocketkit/logger.py` has no `success` method — so the `while True:`
fetch/process loop is dead code: no fetch ever occurs and the
`asyncio.TimeoutError` swallowing never executes.  This theorem evaluates
`run` at the failing input (`sampleWorker` under `oracleOk`, where
pull_subscribe succeeds): for any loop bound the result is the propagated
`AttributeError` and the trace contains no fetch call. -/
theorem pullWorker_run_bug_C4 (fuel : Nat) :
    (PullStreamWorker.run oracleOk sampleWorker fuel).1 =
      some (Except.error PyExc.attributeError) ∧
    Event.fetch sampleWorker.batch ∉
      (PullStreamWorker.run oracleOk sampleWorker fuel).2 := by
  constructor
  · rfl
  · intro h
    simp [PullStreamWorker.run, oracleOk] at h

/-! ### C7: what the constructors store -/

/-- The C7 claim, formalised on `PullStreamWorker` (the case where it fails):
if a wrapper object held no state of its own beyond the borrowed handles and
the channel/stream/durable/queue names, two objects constructed from the same
connection and names would be equal. -/
def claimC7 : Prop :=
  ∀ (conn : NatsConnection) (stream subject durable : String) (b1 b2 : Nat),
    (PullStreamWorker.init conn stream subject durable b1).1 =
      (PullStreamWorker.init conn stream subject durable b2).1

/-- C7 is false on the code: `PullStreamWorker.__init__` also stores the
batch size, so two workers built from the same connection and names with
batch sizes 1 and 2 differ. -/
theorem claimC7_false : ¬ claimC7 := by
  intro h
  have h2 := h sampleConn "st" "su" "du" 1 2
  have h3 := congrArg PullStreamWorker.batch h2
  simp [PullStreamWorker.init] at h3

/-- C7 amended: every wrapper constructor reads only the connection's
session/stream-context handle and stores exactly that handle together with
the given channel/stream/durable/queue names — plus, for `PullStreamWorker`
only, the batch size — leaving the connection unchanged; the object's fields
are exactly these, and two connections with equal handles yield equal
objects. -/
theorem constructor_frame_C7 (conn conn2 : NatsConnection)
    (stream subject durable queue : String) (batch : Nat) :
    EventPublisher.init conn = (⟨conn.nc⟩, conn) ∧
    EventSubscriber.init conn = (⟨conn.nc⟩, conn) ∧
    StreamPublisher.init conn stream subject =
      (⟨conn.js, stream, subject⟩, conn) ∧
    BaseStreamWorker.init conn stream subject durable =
      (⟨conn.js, stream, subject, durable⟩, conn) ∧
    PullStreamWorker.init conn stream subject durable batch =
      (⟨⟨conn.js, stream, subject, durable⟩, batch⟩, conn) ∧
    SubscribeStreamWorker.init conn stream subject durable =
      (⟨⟨conn.js, stream, subject, durable⟩⟩, conn) ∧
    QueueWorker.init conn subject queue = (⟨conn.nc, subject, queue⟩, conn) ∧
    Responder.init conn subject = (⟨conn.nc, subject⟩, conn) ∧
    (conn.nc = conn2.nc →
      (EventPublisher.init conn).1 = (EventPublisher.init conn2).1 ∧
      (EventSubscriber.init conn).1 = (EventSubscriber.init conn2).1 ∧
      (QueueWorker.init conn subject queue).1 =
        (QueueWorker.init conn2 subject queue).1 ∧
      (Responder.init conn subject).1 = (Responder.init conn2 subject).1) ∧
    (conn.js = conn2.js →
      (StreamPublisher.init conn stream subject).1 =
        (StreamPublisher.init conn2 stream subject).1 ∧
      (BaseStreamWorker.init conn stream subject durable).1 =
        (BaseStreamWorker.init conn2 stream subject durable).1 ∧
      (PullStreamWorker.init conn stream subject durable batch).1 =
        (PullStreamWorker.init conn2 stream subject durable batch).1 ∧
      (SubscribeStreamWorker.init conn stream subject durable).1 =
        (SubscribeStreamWorker.init conn2 stream subject durable).1) := by
  refine ⟨rfl, rfl, rfl, rfl, rfl, rfl, rfl, rfl, ?_, ?_⟩
  · intro h
    simp [EventPublisher.init, EventSubscriber.init, QueueWorker.init,
      Responder.init, h]
  · intro h
    simp [StreamPublisher.init, BaseStreamWorker.init, PullStreamWorker.init,
      SubscribeStreamWorker.init, h]

/-- A second connection sharing `sampleConn`'s handles. -/
def sampleConn2 : NatsConnection := ⟨"srv2", sampleClient, sampleJs⟩

/-- Witness for C7 (amended) at two concrete connections with equal
handles. -/
theorem constructor_frame_C7_witness :
    EventPublisher.init sampleConn = (⟨sampleConn.nc⟩, sampleConn) ∧
    (EventPublisher.init sampleConn).1 = (EventPublisher.init sampleConn2).1 ∧
    (StreamPublisher.init sampleConn "st" "su").1 =
      (StreamPublisher.init sampleConn2 "st" "su").1 := by
  obtain ⟨h1, _, _, _, _, _, _, _, hnc, hjs⟩ :=
    constructor_frame_C7 sampleConn sampleConn2 "st" "su" "du" "qu" 1
  exact ⟨h1, (hnc rfl).1, (hjs rfl).1⟩

end Pocket
